import Mathlib

/-!
Shallow embedding of `src/lambda_function.py`: an AWS-Lambda-style HTTP handler
that reads and controls the power state of one OpenStack compute instance.

Modelling choices:
* Python strings are `String`; a Python optional string (a value that may be
  `None`) is `Option String`; Python truthiness of such a value (`if not x`)
  is `truthy` below (`None` and `""` are falsy).
* The process environment and query-string / header dictionaries are
  association lists looked up with `List.lookup` (case-sensitive exact keys,
  as Python `dict.get`).
* JSON bodies read by the handler are `JVal` (only the shapes the code
  touches: null, string, object).
* The network is an oracle `World`: it fixes the identity response, the
  response to `GET /servers/{id}` and the outcome of the (at most one)
  `POST /servers/{id}/action`.  Every outbound request the handler performs
  is recorded, in order, in a trace of `Call`s, so that "no network call is
  made" and "exactly one control POST" are statements about the trace.
* A Python exception that escapes to the handler's outer `except` block is a
  `PyErr`; the handler converts it to the 500 response exactly as the code's
  `_json(500, {"error": "internal_error", "detail": ...})` does.
-/

/-- Python `str.lower()` (ASCII range, which covers every string the
handler compares). -/
def pyLower (s : String) : String :=
  String.mk (s.data.map Char.toLower)

/-- Python `str.upper()` (ASCII range). -/
def pyUpper (s : String) : String :=
  String.mk (s.data.map Char.toUpper)

/-- Python `str.strip()`: drop leading and trailing whitespace. -/
def pyStrip (s : String) : String :=
  String.mk
    (((s.data.dropWhile Char.isWhitespace).reverse.dropWhile
        Char.isWhitespace).reverse)

/-- Python truthiness of an optional string: `None` and `""` are falsy. -/
def truthy : Option String → Bool
  | some s => s ≠ ""
  | none => false

/-- Python `a or b` on optional strings: `b` when `a` is falsy, else `a`. -/
def pyOr (a b : Option String) : Option String :=
  if truthy a then a else b

/-- JSON values as far as the handler inspects them. -/
inductive JVal where
  | null : JVal
  | str : String → JVal
  | obj : List (String × JVal) → JVal

/-- Lookup of a key in a JSON object's field list (Python `d[k]` / `k in d`). -/
def jlookup : List (String × JVal) → String → Option JVal
  | [], _ => none
  | (k, v) :: rest, key => if k = key then some v else jlookup rest key

/-- The process environment: variable name to value, absent names unmapped. -/
abbrev Env : Type := List (String × String)

/-- `os.environ.get(k)`. -/
def envGet (env : Env) (k : String) : Option String :=
  List.lookup k env

/-- The Lambda invocation event: the parts the handler reads.  A `none`
dictionary models a missing or null `headers` / `queryStringParameters` key
(the code guards with `(event or {}).get(...) or {}`). -/
structure Event where
  headers : Option (List (String × String))
  queryStringParameters : Option (List (String × String))

/-- `qs.get(k)` on the event's query-string parameters. -/
def qsGet (ev : Event) (k : String) : Option String :=
  List.lookup k (ev.queryStringParameters.getD [])

/-- `headers.get(k)` on the event's headers (exact, case-sensitive key). -/
def headerGet (ev : Event) (k : String) : Option String :=
  List.lookup k (ev.headers.getD [])

/-- The single-key JSON body of a control `POST /servers/{id}/action`. -/
inductive ActionBody where
  | unshelve : ActionBody
  | osStart : ActionBody
  | shelve : ActionBody
  deriving DecidableEq

/-- One outbound HTTP request made by the handler. -/
inductive Call where
  | authTokens : Call
  | getServer : String → Call
  | postAction : String → ActionBody → Call
  deriving DecidableEq

/-- A Python exception reaching the handler's outer `except Exception`. -/
inductive PyErr where
  | httpError : Call → Nat → PyErr
  | keyError : String → PyErr
  | typeError : PyErr
  | attributeError : PyErr
  | runtimeError : String → PyErr
  deriving DecidableEq

/-- The JSON body of the handler's HTTP response, kept structured (the code
serialises the corresponding Python dict with `json.dumps`). -/
inductive Body where
  | stateB : String → String → Body
  | msg : String → Body
  | msgFrom : String → String → Body
  | invalidAction : List String → Body
  | missingParams : List String → Body
  | notFound : String → Body
  | unauthorized : String → Body
  | internalError : PyErr → Body
  | pyNone : Body
  deriving DecidableEq

/-- The handler's return value, as built by `_json`. -/
structure Response where
  statusCode : Nat
  body : Body
  deriving DecidableEq

/-- `_json(status, body)` from the source: builds the structured response
(the constant `Content-Type: application/json` header is implicit in
`Response`). -/
def _json (status : Nat) (body : Body) : Response :=
  { statusCode := status, body := body }

/-- One endpoint entry of a service-catalog service, with the fields the
code reads: `region_id`, `interface`, `url`. -/
structure Endpoint where
  region_id : String
  interface : String
  url : String
  deriving DecidableEq

/-- One service-catalog entry: its `type` and its `endpoints` list. -/
structure Service where
  type : String
  endpoints : List Endpoint
  deriving DecidableEq

/-- The identity service's answer to `POST {OS_AUTH_URL}/auth/tokens`.
`httpError c` is a non-2xx response (`raise_for_status` raises);
`ok token catalog` is a 2xx response whose `X-Subject-Token` header is
`token` (`none` when the header is absent, so `response.headers[...]`
raises `KeyError`) and whose body holds the parsed catalog. -/
inductive IdResp where
  | httpError : Nat → IdResp
  | ok : Option String → List Service → IdResp

/-- The compute service's answer to `GET /servers/{instance_id}`.
`httpError c` is non-2xx (`raise_for_status` raises); `empty` is a 204 or
empty-content response (`_make_compute_request` returns `None`); `body f`
is a 2xx JSON object with fields `f`. -/
inductive GetResp where
  | httpError : Nat → GetResp
  | empty : GetResp
  | body : List (String × JVal) → GetResp

/-- The compute service's answer to `POST /servers/{instance_id}/action`. -/
inductive PostResult where
  | ok : PostResult
  | httpError : Nat → PostResult

/-- The upstream world: fixes every response the OpenStack services give
during one invocation (the handler makes at most one call of each kind). -/
structure World where
  identity : IdResp
  serverGet : GetResp
  postResp : PostResult


/-- `REQUIRED_ENVS` from the source: the four identity variables, plus
`API_KEY` when API-key enforcement is compiled in. -/
def REQUIRED_ENVS (enableApiKey : Bool) : List String :=
  ["OS_AUTH_URL", "OS_USERNAME", "OS_PASSWORD", "OS_PROJECT_ID"] ++
    (if enableApiKey then ["API_KEY"] else [])

/-- `ENABLE_API_KEY = False  # Disabled for backward compatibility`. -/
def ENABLE_API_KEY : Bool := false

/-- The list `missing` computed by `_require_envs`: required variables that
are unset or empty in the environment. -/
def missingEnvs (enableApiKey : Bool) (env : Env) : List String :=
  (REQUIRED_ENVS enableApiKey).filter (fun k => !truthy (envGet env k))

/-- The API key the request provides, as `_check_api_key` resolves it:
header `X-API-Key`, else header `x-api-key`, else query parameter
`api_key` when the header value is falsy. -/
def provided_api_key (ev : Event) : Option String :=
  let fromHeaders := pyOr (headerGet ev "X-API-Key") (headerGet ev "x-api-key")
  if truthy fromHeaders then fromHeaders else qsGet ev "api_key"

/-- `_check_api_key(event)`: `Except.error m` models `raise RuntimeError(m)`. -/
def _check_api_key (enableApiKey : Bool) (env : Env) (ev : Event) :
    Except String Unit :=
  if !enableApiKey then .ok ()
  else
    let expected := envGet env "API_KEY"
    if !truthy expected then
      .error "API_KEY environment variable not configured"
    else
      let provided := provided_api_key ev
      if !truthy provided then
        .error "API key not provided. Use X-API-Key header or api_key query parameter"
      else if provided.getD "" ≠ expected.getD "" then
        .error "Invalid API key"
      else
        .ok ()

/-- The inner loop over one compute service's endpoint list: the first
endpoint with `region_id == region and interface == 'public'`. -/
def find_public_endpoint (region : String) : List Endpoint → Option String
  | [] => none
  | e :: rest =>
      if e.region_id = region ∧ e.interface = "public" then some e.url
      else find_public_endpoint region rest

/-- The outer loop of the catalog scan, carrying the mutable
`compute_endpoint` variable (`none` while still unassigned).  For each
service of type `compute`, in catalog order, the inner loop's first match
is assigned to the variable (its URL may be the empty string); the loop
then breaks only `if compute_endpoint:` — Python truthiness — so a falsy
(empty-string) assignment keeps the scan going through later services. -/
def find_compute_endpoint_loop (region : String) (compute_endpoint : Option String) :
    List Service → Option String
  | [] => compute_endpoint
  | s :: rest =>
      if s.type = "compute" then
        let ce :=
          match find_public_endpoint region s.endpoints with
          | some url => some url
          | none => compute_endpoint
        if truthy ce then ce else find_compute_endpoint_loop region ce rest
      else find_compute_endpoint_loop region compute_endpoint rest

/-- The whole catalog scan of `_get_token_and_compute_url`: the loop
started with `compute_endpoint = None`. -/
def find_compute_endpoint (region : String) (catalog : List Service) :
    Option String :=
  find_compute_endpoint_loop region none catalog

/-- `_get_token_and_compute_url(region)` given the world's identity
response (the `POST .../auth/tokens` call itself is recorded by the
caller).  The final guard is Python's
`if not token or not compute_endpoint`, so an empty-string token or
endpoint URL also raises. -/
def _get_token_and_compute_url (region : String) (w : World) :
    Except PyErr (String × String) :=
  match w.identity with
  | .httpError c => .error (.httpError .authTokens c)
  | .ok tokenHeader catalog =>
    match tokenHeader with
    | none => .error (.keyError "X-Subject-Token")
    | some token =>
      let compute_endpoint := find_compute_endpoint region catalog
      if token = "" ∨ truthy compute_endpoint = false then
        .error (.runtimeError "Could not retrieve token or compute endpoint from OpenStack.")
      else
        .ok (token, compute_endpoint.getD "")

/-- `server["status"].upper()` on the JSON value bound to `"server"`:
a non-object raises `TypeError`, a missing `status` key raises `KeyError`,
a non-string status raises `AttributeError` (no `.upper`). -/
def server_status : JVal → Except PyErr String
  | .obj fields =>
    match jlookup fields "status" with
    | some (.str s) => .ok (pyUpper s)
    | some _ => .error .attributeError
    | none => .error (.keyError "status")
  | _ => .error .typeError

/-- Lines 189-220 of the source: fetch the server, decide, optionally issue
one control POST.  Returns the response together with the calls this step
makes (the `GET /servers/{id}` and, possibly, one `POST .../action`). -/
def control_step (action instance_id : String) (w : World) :
    Response × List Call :=
  match w.serverGet with
  | .httpError c =>
      (_json 500 (.internalError (.httpError (.getServer instance_id) c)),
       [.getServer instance_id])
  | .empty =>
      (_json 404 (.notFound instance_id), [.getServer instance_id])
  | .body fields =>
    if fields.isEmpty ∨ (jlookup fields "server").isNone then
      (_json 404 (.notFound instance_id), [.getServer instance_id])
    else
      match jlookup fields "server" with
      | none =>
          (_json 404 (.notFound instance_id), [.getServer instance_id])
      | some server =>
        match server_status server with
        | .error e =>
            (_json 500 (.internalError e), [.getServer instance_id])
        | .ok state =>
          if action = "status" then
            (_json 200 (.stateB instance_id state), [.getServer instance_id])
          else if action = "start" then
            if state = "SHELVED" ∨ state = "SHELVED_OFFLOADED" then
              match w.postResp with
              | .ok =>
                  (_json 200 (.msgFrom "unshelve requested" state),
                   [.getServer instance_id, .postAction instance_id .unshelve])
              | .httpError c =>
                  (_json 500 (.internalError (.httpError (.postAction instance_id .unshelve) c)),
                   [.getServer instance_id, .postAction instance_id .unshelve])
            else if state = "ACTIVE" then
              (_json 200 (.msg "already active"), [.getServer instance_id])
            else
              match w.postResp with
              | .ok =>
                  (_json 200 (.msgFrom "start requested" state),
                   [.getServer instance_id, .postAction instance_id .osStart])
              | .httpError c =>
                  (_json 500 (.internalError (.httpError (.postAction instance_id .osStart) c)),
                   [.getServer instance_id, .postAction instance_id .osStart])
          else if action = "stop" then
            if state = "SHELVED" ∨ state = "SHELVED_OFFLOADED" then
              (_json 200 (.msg "already shelved"), [.getServer instance_id])
            else if state = "ACTIVE" then
              match w.postResp with
              | .ok =>
                  (_json 200 (.msg "shelve requested from ACTIVE"),
                   [.getServer instance_id, .postAction instance_id .shelve])
              | .httpError c =>
                  (_json 500 (.internalError (.httpError (.postAction instance_id .shelve) c)),
                   [.getServer instance_id, .postAction instance_id .shelve])
            else if state = "SHUTOFF" then
              match w.postResp with
              | .ok =>
                  (_json 200 (.msg "shelve requested from SHUTOFF"),
                   [.getServer instance_id, .postAction instance_id .shelve])
              | .httpError c =>
                  (_json 500 (.internalError (.httpError (.postAction instance_id .shelve) c)),
                   [.getServer instance_id, .postAction instance_id .shelve])
            else
              match w.postResp with
              | .ok =>
                  (_json 200 (.msgFrom "shelve requested" state),
                   [.getServer instance_id, .postAction instance_id .shelve])
              | .httpError c =>
                  (_json 500 (.internalError (.httpError (.postAction instance_id .shelve) c)),
                   [.getServer instance_id, .postAction instance_id .shelve])
          else
            (_json 0 .pyNone, [.getServer instance_id])

/-- `(qs.get("action") or "status").lower().strip()`. -/
def resolvedAction (ev : Event) : String :=
  pyStrip (pyLower ((pyOr (qsGet ev "action") (some "status")).getD ""))

/-- `qs.get("region") or os.environ.get("OS_REGION_NAME")`. -/
def resolvedRegion (env : Env) (ev : Event) : Option String :=
  pyOr (qsGet ev "region") (envGet env "OS_REGION_NAME")

/-- `qs.get("instance_id") or os.environ.get("INSTANCE_ID")`. -/
def resolvedInstance (env : Env) (ev : Event) : Option String :=
  pyOr (qsGet ev "instance_id") (envGet env "INSTANCE_ID")

/-- Lines 168-220 of `lambda_handler`: everything after the env check and
the API-key gate. -/
def lambda_main (env : Env) (ev : Event) (w : World) : Response × List Call :=
  let action := resolvedAction ev
  if !(["start", "stop", "status"].contains action) then
    (_json 400 (.invalidAction ["start", "stop", "status"]), [])
  else
    let region := resolvedRegion env ev
    let instance_id := resolvedInstance env ev
    let missing :=
      (if !truthy region then ["region"] else []) ++
      (if !truthy instance_id then ["instance_id"] else [])
    if !missing.isEmpty then
      (_json 400 (.missingParams missing), [])
    else
      match _get_token_and_compute_url (region.getD "") w with
      | .error e => (_json 500 (.internalError e), [.authTokens])
      | .ok _ =>
        let (resp, calls) := control_step action (instance_id.getD "") w
        (resp, .authTokens :: calls)

/-- `lambda_handler(event, context)` with the module flag `ENABLE_API_KEY`
made an explicit parameter (the source fixes it to `False`; see
`lambda_handler`). -/
def lambda_handler_cfg (enableApiKey : Bool) (env : Env) (ev : Event)
    (w : World) : Response × List Call :=
  if !(missingEnvs enableApiKey env).isEmpty then
    (_json 500 (.internalError (.runtimeError
      ("Missing required envs: " ++
        String.intercalate ", " (missingEnvs enableApiKey env)))), [])
  else if enableApiKey then
    match _check_api_key enableApiKey env ev with
    | .error m => (_json 401 (.unauthorized m), [])
    | .ok _ => lambda_main env ev w
  else
    lambda_main env ev w

/-- The handler exactly as shipped: `ENABLE_API_KEY = False`. -/
def lambda_handler (env : Env) (ev : Event) (w : World) :
    Response × List Call :=
  lambda_handler_cfg ENABLE_API_KEY env ev w

/-- Is this outbound call a mutating control POST? -/
def isControlPost : Call → Bool
  | .postAction _ _ => true
  | _ => false

/-- The control POSTs of a trace, in order. -/
def controlPosts (calls : List Call) : List Call :=
  calls.filter isControlPost

/-- Modelled from the spec's words for claim C6 (the refinement target, not
the source): the URL of the first endpoint, in catalog order, that belongs
to a service of type `compute` and has interface `public` and `region_id`
exactly equal to the requested region. -/
def spec_compute_url (region : String) (catalog : List Service) :
    Option String :=
  ((((catalog.filter (fun s => s.type = "compute")).flatMap
      (fun s => s.endpoints)).filter
      (fun e => e.interface = "public" ∧ e.region_id = region)).head?).map
    (fun e => e.url)

/-- A service's contribution to the scan: the URL of its first endpoint
with interface `public` and `region_id` equal to the requested region. -/
def per_service_first_match (region : String) (s : Service) : Option String :=
  ((s.endpoints.filter
      (fun e => e.interface = "public" ∧ e.region_id = region)).head?).map
    (fun e => e.url)

/-- Modelled from the amended claim C6 (the refinement target, not the
source): among the `compute`-type services in catalog order, the first
nonempty URL contributed as a service's first matching endpoint; a
matching endpoint with an empty URL is falsy, so its service contributes
nothing and the scan continues. -/
def spec_compute_url_amended (region : String) (catalog : List Service) :
    Option String :=
  (((catalog.filter (fun s => s.type = "compute")).filterMap
      (per_service_first_match region)).filter (fun u => u ≠ "")).head?

/-- An optional string seen through Python truthiness: an empty string
counts as no value. -/
def truthyOrNone (o : Option String) : Option String :=
  if truthy o then o else none

/-- A truthy optional string is `some` of a nonempty string. -/
theorem truthy_eq_some {o : Option String} (h : truthy o = true) :
    o = some (o.getD "") ∧ o.getD "" ≠ "" := by
  cases o with
  | none => simp [truthy] at h
  | some s =>
    simp [truthy] at h
    exact ⟨rfl, h⟩

/-- A successful `jlookup` forces a nonempty field list. -/
theorem jlookup_isEmpty_false {fields : List (String × JVal)} {k : String}
    {v : JVal} (h : jlookup fields k = some v) : fields.isEmpty = false := by
  cases fields with
  | nil => simp [jlookup] at h
  | cons a t => rfl

/-- When `_require_envs` passes, every required variable is truthy. -/
theorem required_truthy {enable : Bool} {env : Env}
    (henv : missingEnvs enable env = []) {k : String}
    (hk : k ∈ REQUIRED_ENVS enable) : truthy (envGet env k) = true := by
  have h := (List.filter_eq_nil_iff.mp henv) k hk
  simpa using h

/-- Reaching the instance-control step: with all required variables set, a
valid action, resolvable region and instance id, and a successful
authentication, the handler's answer is `control_step`'s answer with the
identity call prepended. -/
theorem handler_reach {env : Env} {ev : Event} {w : World}
    {iid tok url : String}
    (henv : missingEnvs ENABLE_API_KEY env = [])
    (hallowed : (["start", "stop", "status"].contains (resolvedAction ev)) = true)
    (hreg : truthy (resolvedRegion env ev) = true)
    (hinstT : truthy (resolvedInstance env ev) = true)
    (hinst : resolvedInstance env ev = some iid)
    (hauth : _get_token_and_compute_url ((resolvedRegion env ev).getD "") w =
      .ok (tok, url)) :
    lambda_handler env ev w =
      ((control_step (resolvedAction ev) iid w).1,
       .authTokens :: (control_step (resolvedAction ev) iid w).2) := by
  have henv' : missingEnvs false env = [] := henv
  have hinstT' : truthy (some iid) = true := by rw [← hinst]; exact hinstT
  have hA : resolvedAction ev = "start" ∨ resolvedAction ev = "stop" ∨
      resolvedAction ev = "status" := by simpa using hallowed
  rcases hc : control_step (resolvedAction ev) iid w with ⟨r, cs⟩
  rcases hA with h | h | h <;> rw [h] at hc <;>
    simp [lambda_handler, lambda_handler_cfg, lambda_main, ENABLE_API_KEY, henv',
      h, hreg, hinstT, hinst, hinstT', hauth, hc]

/-- A failed authentication is surfaced as the 500 internal-error response,
with the identity call the only outbound request. -/
theorem handler_auth_error {env : Env} {ev : Event} {w : World} {e : PyErr}
    (henv : missingEnvs ENABLE_API_KEY env = [])
    (hallowed : (["start", "stop", "status"].contains (resolvedAction ev)) = true)
    (hreg : truthy (resolvedRegion env ev) = true)
    (hinstT : truthy (resolvedInstance env ev) = true)
    (hauth : _get_token_and_compute_url ((resolvedRegion env ev).getD "") w =
      .error e) :
    lambda_handler env ev w = (_json 500 (.internalError e), [.authTokens]) := by
  have henv' : missingEnvs false env = [] := henv
  have hA : resolvedAction ev = "start" ∨ resolvedAction ev = "stop" ∨
      resolvedAction ev = "status" := by simpa using hallowed
  rcases hA with h | h | h <;>
    simp [lambda_handler, lambda_handler_cfg, lambda_main, ENABLE_API_KEY, henv',
      h, hreg, hinstT, hauth]

/-- The inner endpoint loop returns the head of the filtered endpoint list. -/
theorem find_public_endpoint_eq (region : String) (eps : List Endpoint) :
    find_public_endpoint region eps =
      ((eps.filter
          (fun e => e.interface = "public" ∧ e.region_id = region)).head?).map
        (fun e => e.url) := by
  induction eps with
  | nil => rfl
  | cons e rest ih =>
    by_cases h1 : e.region_id = region <;> by_cases h2 : e.interface = "public" <;>
      simp [find_public_endpoint, h1, h2, ih]

/-- A `truthyOrNone` hit is the value itself, and it is truthy. -/
theorem truthyOrNone_some {o : Option String} {url : String}
    (h : truthyOrNone o = some url) : o = some url ∧ truthy o = true := by
  cases ht : truthy o with
  | true =>
    rw [truthyOrNone, ht] at h
    exact ⟨by simpa using h, rfl⟩
  | false =>
    rw [truthyOrNone, ht] at h
    simp at h

/-- A `truthyOrNone` miss means the value is falsy. -/
theorem truthyOrNone_none {o : Option String}
    (h : truthyOrNone o = none) : truthy o = false := by
  cases ht : truthy o with
  | false => rfl
  | true =>
    rw [truthyOrNone, ht] at h
    simp at h
    rw [h] at ht
    simp [truthy] at ht

/-- Unfolding `spec_compute_url_amended` one catalog entry at a time. -/
theorem spec_compute_url_amended_cons (region : String) (s : Service)
    (rest : List Service) :
    spec_compute_url_amended region (s :: rest) =
      if s.type = "compute" then
        match per_service_first_match region s with
        | some url =>
            if url = "" then spec_compute_url_amended region rest else some url
        | none => spec_compute_url_amended region rest
      else spec_compute_url_amended region rest := by
  by_cases hs : s.type = "compute"
  · rw [if_pos hs]
    cases hper : per_service_first_match region s with
    | none =>
      unfold spec_compute_url_amended
      rw [List.filter_cons_of_pos (by simpa using hs), List.filterMap_cons, hper]
    | some url =>
      by_cases hurl : url = ""
      · subst hurl
        unfold spec_compute_url_amended
        rw [List.filter_cons_of_pos (by simpa using hs), List.filterMap_cons,
          hper]
        simp
      · unfold spec_compute_url_amended
        rw [List.filter_cons_of_pos (by simpa using hs), List.filterMap_cons,
          hper]
        simp [hurl]
  · rw [if_neg hs]
    unfold spec_compute_url_amended
    rw [List.filter_cons_of_neg (by simpa using hs)]

/-- The scan loop, started from any falsy accumulator, selects (through
the truthiness lens of its consumers) exactly the amended first match. -/
theorem find_compute_endpoint_loop_spec (region : String)
    (catalog : List Service) :
    ∀ ce : Option String, truthy ce = false →
      truthyOrNone (find_compute_endpoint_loop region ce catalog) =
        spec_compute_url_amended region catalog := by
  induction catalog with
  | nil =>
    intro ce hce
    simp [find_compute_endpoint_loop, truthyOrNone, hce,
      spec_compute_url_amended]
  | cons s rest ih =>
    intro ce hce
    rw [spec_compute_url_amended_cons]
    have hper : per_service_first_match region s =
        find_public_endpoint region s.endpoints :=
      (find_public_endpoint_eq region s.endpoints).symm
    by_cases hs : s.type = "compute"
    · rw [if_pos hs]
      cases hfp : find_public_endpoint region s.endpoints with
      | none =>
        have hL : find_compute_endpoint_loop region ce (s :: rest) =
            find_compute_endpoint_loop region ce rest := by
          simp [find_compute_endpoint_loop, hs, hfp, hce]
        rw [hL, hper, hfp, ih ce hce]
      | some url =>
        by_cases hurl : url = ""
        · subst hurl
          have hce' : truthy (some "") = false := by simp [truthy]
          have hL : find_compute_endpoint_loop region ce (s :: rest) =
              find_compute_endpoint_loop region (some "") rest := by
            simp [find_compute_endpoint_loop, hs, hfp, truthy]
          rw [hL, hper, hfp, ih (some "") hce']
          simp
        · have htr : truthy (some url) = true := by simp [truthy, hurl]
          have hL : find_compute_endpoint_loop region ce (s :: rest) =
              some url := by
            simp [find_compute_endpoint_loop, hs, hfp, htr]
          rw [hL, hper, hfp]
          simp [truthyOrNone, htr, hurl]
    · rw [if_neg hs]
      have hL : find_compute_endpoint_loop region ce (s :: rest) =
          find_compute_endpoint_loop region ce rest := by
        simp [find_compute_endpoint_loop, hs]
      rw [hL, ih ce hce]

/-- The whole catalog scan, through the truthiness lens, equals the
amended first-match description. -/
theorem find_compute_endpoint_spec (region : String)
    (catalog : List Service) :
    truthyOrNone (find_compute_endpoint region catalog) =
      spec_compute_url_amended region catalog :=
  find_compute_endpoint_loop_spec region catalog none rfl

/-- `control_step` issues at most one control POST. -/
theorem control_step_posts_le (action iid : String) (w : World) :
    (controlPosts (control_step action iid w).2).length ≤ 1 := by
  unfold control_step
  repeat' split
  all_goals simp [controlPosts, isControlPost]

/-- `control_step` never answers 401. -/
theorem control_step_code (action iid : String) (w : World) :
    ((control_step action iid w).1.statusCode == 401) = false := by
  unfold control_step
  repeat' split
  all_goals rfl

/-- The post-gate part of the handler issues at most one control POST. -/
theorem lambda_main_posts_le (env : Env) (ev : Event) (w : World) :
    (controlPosts (lambda_main env ev w).2).length ≤ 1 := by
  simp only [lambda_main]
  rcases hc : control_step (resolvedAction ev)
      ((resolvedInstance env ev).getD "") w with ⟨r, cs⟩
  have hstep :=
    control_step_posts_le (resolvedAction ev) ((resolvedInstance env ev).getD "") w
  rw [hc] at hstep
  repeat' split
  all_goals first
    | (simp [controlPosts, isControlPost]; done)
    | simpa [controlPosts, isControlPost, List.filter_cons] using hstep

/-- The post-gate part of the handler never answers 401. -/
theorem lambda_main_code (env : Env) (ev : Event) (w : World) :
    ((lambda_main env ev w).1.statusCode == 401) = false := by
  simp only [lambda_main]
  rcases hc : control_step (resolvedAction ev)
      ((resolvedInstance env ev).getD "") w with ⟨r, cs⟩
  have hstep :=
    control_step_code (resolvedAction ev) ((resolvedInstance env ev).getD "") w
  rw [hc] at hstep
  repeat' split
  all_goals first
    | rfl
    | simpa using hstep

/-- A catalog with one public compute endpoint in region `GRA11`. -/
def sampleCatalog : List Service :=
  [{ type := "compute",
     endpoints := [{ region_id := "GRA11", interface := "public",
                     url := "https://compute.example/v2.1" }] }]

/-- An environment with every required variable set. -/
def sampleEnv : Env :=
  [("OS_AUTH_URL", "https://auth.example/v3"), ("OS_USERNAME", "user"),
   ("OS_PASSWORD", "pw"), ("OS_PROJECT_ID", "proj"),
   ("OS_REGION_NAME", "GRA11"), ("INSTANCE_ID", "i-123")]

/-- `sampleEnv` plus a configured API key. -/
def sampleEnvKey : Env := sampleEnv ++ [("API_KEY", "sekret")]

/-- A healthy upstream: good identity response, a server in status `st`,
control POSTs succeed. -/
def sampleWorld (st : String) : World :=
  { identity := .ok (some "tok") sampleCatalog,
    serverGet := .body [("server", .obj [("status", .str st)])],
    postResp := .ok }

/-- An event that only carries an `action` query parameter. -/
def actionEvent (a : String) : Event :=
  { headers := none, queryStringParameters := some [("action", a)] }

/-- C1: on a stop invocation that reaches the instance-control step,
SHELVED / SHELVED_OFFLOADED issue zero control POSTs and report already
shelved; ACTIVE, SHUTOFF and every other status issue exactly one
`{"shelve": null}` POST and the 200 response reports the transition. -/
theorem C1_stop_state_machine {env : Env} {ev : Event} {w : World}
    {iid tok url : String} {fields : List (String × JVal)} {server : JVal}
    {state : String}
    (henv : missingEnvs ENABLE_API_KEY env = [])
    (hact : resolvedAction ev = "stop")
    (hreg : truthy (resolvedRegion env ev) = true)
    (hinstT : truthy (resolvedInstance env ev) = true)
    (hinst : resolvedInstance env ev = some iid)
    (hauth : _get_token_and_compute_url ((resolvedRegion env ev).getD "") w =
      .ok (tok, url))
    (hget : w.serverGet = .body fields)
    (hsrv : jlookup fields "server" = some server)
    (hst : server_status server = .ok state)
    (hpost : w.postResp = .ok) :
    ((state = "SHELVED" ∨ state = "SHELVED_OFFLOADED") →
       controlPosts (lambda_handler env ev w).2 = [] ∧
       (lambda_handler env ev w).1 = _json 200 (.msg "already shelved")) ∧
    (state = "ACTIVE" →
       controlPosts (lambda_handler env ev w).2 = [.postAction iid .shelve] ∧
       (lambda_handler env ev w).1 =
         _json 200 (.msg "shelve requested from ACTIVE")) ∧
    (state = "SHUTOFF" →
       controlPosts (lambda_handler env ev w).2 = [.postAction iid .shelve] ∧
       (lambda_handler env ev w).1 =
         _json 200 (.msg "shelve requested from SHUTOFF")) ∧
    (state ≠ "SHELVED" → state ≠ "SHELVED_OFFLOADED" → state ≠ "ACTIVE" →
     state ≠ "SHUTOFF" →
       controlPosts (lambda_handler env ev w).2 = [.postAction iid .shelve] ∧
       (lambda_handler env ev w).1 =
         _json 200 (.msgFrom "shelve requested" state)) := by
  have hmain := handler_reach henv (by rw [hact]; rfl) hreg hinstT hinst hauth
  rw [hact] at hmain
  have hne := jlookup_isEmpty_false hsrv
  refine ⟨?_, ?_, ?_, ?_⟩
  · rintro (h | h) <;> subst h <;>
      simp [hmain, control_step, hget, hsrv, hst, hne, controlPosts,
        isControlPost]
  · rintro h
    subst h
    simp [hmain, control_step, hget, hsrv, hst, hne, hpost, controlPosts,
      isControlPost]
  · rintro h
    subst h
    simp [hmain, control_step, hget, hsrv, hst, hne, hpost, controlPosts,
      isControlPost]
  · rintro h1 h2 h3 h4
    simp [hmain, control_step, hget, hsrv, hst, hne, hpost, h1, h2, h3, h4,
      controlPosts, isControlPost]

/-- C1 witness: a concrete stop invocation from status `active`. -/
theorem C1_stop_state_machine_witness :
    controlPosts
        (lambda_handler sampleEnv (actionEvent "stop") (sampleWorld "active")).2 =
      [.postAction "i-123" .shelve] ∧
    (lambda_handler sampleEnv (actionEvent "stop") (sampleWorld "active")).1 =
      _json 200 (.msg "shelve requested from ACTIVE") :=
  (@C1_stop_state_machine sampleEnv (actionEvent "stop") (sampleWorld "active")
    "i-123" "tok" "https://compute.example/v2.1"
    [("server", JVal.obj [("status", JVal.str "active")])]
    (JVal.obj [("status", JVal.str "active")]) "ACTIVE"
    rfl rfl rfl rfl rfl rfl rfl rfl rfl rfl).2.1 rfl

/-- C2: on a start invocation that reaches the instance-control step,
SHELVED / SHELVED_OFFLOADED issue exactly one `{"unshelve": null}` POST and
the 200 response carries the prior state; ACTIVE issues zero control POSTs
and reports already active; every other status issues exactly one
`{"os-start": null}` POST and the 200 response carries the prior state. -/
theorem C2_start_state_machine {env : Env} {ev : Event} {w : World}
    {iid tok url : String} {fields : List (String × JVal)} {server : JVal}
    {state : String}
    (henv : missingEnvs ENABLE_API_KEY env = [])
    (hact : resolvedAction ev = "start")
    (hreg : truthy (resolvedRegion env ev) = true)
    (hinstT : truthy (resolvedInstance env ev) = true)
    (hinst : resolvedInstance env ev = some iid)
    (hauth : _get_token_and_compute_url ((resolvedRegion env ev).getD "") w =
      .ok (tok, url))
    (hget : w.serverGet = .body fields)
    (hsrv : jlookup fields "server" = some server)
    (hst : server_status server = .ok state)
    (hpost : w.postResp = .ok) :
    ((state = "SHELVED" ∨ state = "SHELVED_OFFLOADED") →
       controlPosts (lambda_handler env ev w).2 = [.postAction iid .unshelve] ∧
       (lambda_handler env ev w).1 =
         _json 200 (.msgFrom "unshelve requested" state)) ∧
    (state = "ACTIVE" →
       controlPosts (lambda_handler env ev w).2 = [] ∧
       (lambda_handler env ev w).1 = _json 200 (.msg "already active")) ∧
    (state ≠ "SHELVED" → state ≠ "SHELVED_OFFLOADED" → state ≠ "ACTIVE" →
       controlPosts (lambda_handler env ev w).2 = [.postAction iid .osStart] ∧
       (lambda_handler env ev w).1 =
         _json 200 (.msgFrom "start requested" state)) := by
  have hmain := handler_reach henv (by rw [hact]; rfl) hreg hinstT hinst hauth
  rw [hact] at hmain
  have hne := jlookup_isEmpty_false hsrv
  refine ⟨?_, ?_, ?_⟩
  · rintro (h | h) <;> subst h <;>
      simp [hmain, control_step, hget, hsrv, hst, hne, hpost, controlPosts,
        isControlPost]
  · rintro h
    subst h
    simp [hmain, control_step, hget, hsrv, hst, hne, controlPosts,
      isControlPost]
  · rintro h1 h2 h3
    simp [hmain, control_step, hget, hsrv, hst, hne, hpost, h1, h2, h3,
      controlPosts, isControlPost]

/-- C2 witness: a concrete start invocation from status
`shelved_offloaded`. -/
theorem C2_start_state_machine_witness :
    controlPosts
        (lambda_handler sampleEnv (actionEvent "start")
          (sampleWorld "shelved_offloaded")).2 =
      [.postAction "i-123" .unshelve] ∧
    (lambda_handler sampleEnv (actionEvent "start")
        (sampleWorld "shelved_offloaded")).1 =
      _json 200 (.msgFrom "unshelve requested" "SHELVED_OFFLOADED") :=
  (@C2_start_state_machine sampleEnv (actionEvent "start")
    (sampleWorld "shelved_offloaded")
    "i-123" "tok" "https://compute.example/v2.1"
    [("server", JVal.obj [("status", JVal.str "shelved_offloaded")])]
    (JVal.obj [("status", JVal.str "shelved_offloaded")]) "SHELVED_OFFLOADED"
    rfl rfl rfl rfl rfl rfl rfl rfl rfl rfl).1 (Or.inr rfl)

/-- C3: when the compute GET yields an empty response or a body without a
`server` key, the handler answers 404 naming the instance and issues no
control POST. -/
theorem C3_instance_not_found {env : Env} {ev : Event} {w : World}
    {iid tok url : String}
    (henv : missingEnvs ENABLE_API_KEY env = [])
    (hallowed : (["start", "stop", "status"].contains (resolvedAction ev)) = true)
    (hreg : truthy (resolvedRegion env ev) = true)
    (hinstT : truthy (resolvedInstance env ev) = true)
    (hinst : resolvedInstance env ev = some iid)
    (hauth : _get_token_and_compute_url ((resolvedRegion env ev).getD "") w =
      .ok (tok, url))
    (hmiss : w.serverGet = .empty ∨
      ∃ fields, w.serverGet = .body fields ∧ jlookup fields "server" = none) :
    lambda_handler env ev w =
      (_json 404 (.notFound iid), [.authTokens, .getServer iid]) ∧
    controlPosts (lambda_handler env ev w).2 = [] := by
  have hmain := handler_reach henv hallowed hreg hinstT hinst hauth
  rcases hmiss with h | ⟨fields, hb, hn⟩
  · constructor <;>
      simp [hmain, control_step, h, controlPosts, isControlPost]
  · constructor <;>
      simp [hmain, control_step, hb, hn, controlPosts, isControlPost]

/-- A world whose compute GET body has no `server` key. -/
def notFoundWorld : World :=
  { identity := .ok (some "tok") sampleCatalog,
    serverGet := .body [("other", JVal.null)],
    postResp := .ok }

/-- C3 witness: a concrete invocation whose GET body lacks `server`. -/
theorem C3_instance_not_found_witness :
    lambda_handler sampleEnv (actionEvent "stop") notFoundWorld =
      (_json 404 (.notFound "i-123"), [.authTokens, .getServer "i-123"]) ∧
    controlPosts (lambda_handler sampleEnv (actionEvent "stop") notFoundWorld).2 =
      [] :=
  @C3_instance_not_found sampleEnv (actionEvent "stop") notFoundWorld
    "i-123" "tok" "https://compute.example/v2.1"
    rfl rfl rfl rfl rfl rfl
    (Or.inr ⟨[("other", JVal.null)], rfl, rfl⟩)

/-- C4 counterexample: with the four required variables unset, an
invocation with the invalid action `restart` is answered 500 (the env
check runs first), not 400 as the claim universally asserts. -/
theorem C4_invalid_action_counterexample :
    resolvedAction (actionEvent "restart") = "restart" ∧
    ((["start", "stop", "status"].contains
        (resolvedAction (actionEvent "restart"))) = false) ∧
    (lambda_handler [] (actionEvent "restart") (sampleWorld "ACTIVE")).1.statusCode
      = 500 ∧
    ((lambda_handler [] (actionEvent "restart")
        (sampleWorld "ACTIVE")).1.statusCode == 400) = false :=
  ⟨rfl, rfl, rfl, rfl⟩

/-- C4 amended: provided every required environment variable is set and
nonempty, an invocation whose normalised action is outside
start/stop/status is answered 400 listing the allowed set, with no
outbound call. -/
theorem C4_invalid_action_amended {env : Env} {ev : Event} {w : World}
    (henv : missingEnvs ENABLE_API_KEY env = [])
    (hbad : (["start", "stop", "status"].contains (resolvedAction ev)) = false) :
    lambda_handler env ev w =
      (_json 400 (.invalidAction ["start", "stop", "status"]), []) := by
  have henv' : missingEnvs false env = [] := henv
  have hbad' : ¬(resolvedAction ev = "start" ∨ resolvedAction ev = "stop" ∨
      resolvedAction ev = "status") := by simpa using hbad
  have h1 : resolvedAction ev ≠ "start" := fun h => hbad' (Or.inl h)
  have h2 : resolvedAction ev ≠ "stop" := fun h => hbad' (Or.inr (Or.inl h))
  have h3 : resolvedAction ev ≠ "status" := fun h => hbad' (Or.inr (Or.inr h))
  simp [lambda_handler, lambda_handler_cfg, lambda_main, ENABLE_API_KEY, henv',
    h1, h2, h3]

/-- C4 witness: a concrete invocation with action `reboot` and all
required variables set. -/
theorem C4_invalid_action_witness :
    lambda_handler sampleEnv (actionEvent "reboot") (sampleWorld "ACTIVE") =
      (_json 400 (.invalidAction ["start", "stop", "status"]), []) :=
  @C4_invalid_action_amended sampleEnv (actionEvent "reboot")
    (sampleWorld "ACTIVE") rfl rfl

/-- C5: with at least one required environment variable unset or empty,
every invocation is answered 500 whose message lists exactly the missing
required keys, and no outbound call is made. -/
theorem C5_missing_env_500 {env : Env} (ev : Event) (w : World)
    (h : missingEnvs ENABLE_API_KEY env ≠ []) :
    lambda_handler env ev w =
      (_json 500 (.internalError (.runtimeError
        ("Missing required envs: " ++
          String.intercalate ", " (missingEnvs ENABLE_API_KEY env)))), []) ∧
    ∀ k, k ∈ missingEnvs ENABLE_API_KEY env ↔
      (k ∈ REQUIRED_ENVS ENABLE_API_KEY ∧ truthy (envGet env k) = false) := by
  have h' : (missingEnvs false env).isEmpty = false := by
    rw [List.isEmpty_eq_false]
    exact h
  constructor
  · simp [lambda_handler, lambda_handler_cfg, ENABLE_API_KEY, h']
  · intro k
    simp [missingEnvs, List.mem_filter]

/-- C5 witness: only `OS_AUTH_URL` is set, so the other three required
keys are reported. -/
theorem C5_missing_env_500_witness :
    lambda_handler [("OS_AUTH_URL", "u")] (actionEvent "status")
        (sampleWorld "ACTIVE") =
      (_json 500 (.internalError (.runtimeError
        "Missing required envs: OS_USERNAME, OS_PASSWORD, OS_PROJECT_ID")), []) :=
  (@C5_missing_env_500 [("OS_AUTH_URL", "u")] (actionEvent "status")
    (sampleWorld "ACTIVE") (by decide)).1

/-- A catalog in which the first matching compute endpoint (in catalog
order) has an empty URL, while a later compute service has a nonempty
one. -/
def emptyUrlCatalog : List Service :=
  [{ type := "compute",
     endpoints := [{ region_id := "GRA11", interface := "public",
                     url := "" }] },
   { type := "compute",
     endpoints := [{ region_id := "GRA11", interface := "public",
                     url := "https://second.example/v2.1" }] }]

/-- A catalog whose only matching compute endpoint has an empty URL. -/
def onlyEmptyUrlCatalog : List Service :=
  [{ type := "compute",
     endpoints := [{ region_id := "GRA11", interface := "public",
                     url := "" }] }]

/-- A healthy world whose identity response carries `emptyUrlCatalog`. -/
def emptyUrlWorld : World :=
  { identity := .ok (some "tok") emptyUrlCatalog,
    serverGet := .body [("server", .obj [("status", .str "ACTIVE")])],
    postResp := .ok }

/-- A healthy world whose identity response carries
`onlyEmptyUrlCatalog`. -/
def onlyEmptyUrlWorld : World :=
  { identity := .ok (some "tok") onlyEmptyUrlCatalog,
    serverGet := .body [("server", .obj [("status", .str "ACTIVE")])],
    postResp := .ok }

/-- C6 counterexample: the first endpoint in catalog order matching
compute/public/region has URL `""` (so the claim says authentication
returns `""`), but the source's `if compute_endpoint:` break is falsy on
it: with a later compute service present the scan returns that service's
URL instead, and with no later service the final
`if not token or not compute_endpoint` guard raises (500). -/
theorem C6_compute_endpoint_selection_counterexample :
    spec_compute_url "GRA11" emptyUrlCatalog = some "" ∧
    _get_token_and_compute_url "GRA11" emptyUrlWorld =
      .ok ("tok", "https://second.example/v2.1") ∧
    spec_compute_url "GRA11" onlyEmptyUrlCatalog = some "" ∧
    _get_token_and_compute_url "GRA11" onlyEmptyUrlWorld =
      .error (.runtimeError
        "Could not retrieve token or compute endpoint from OpenStack.") :=
  ⟨rfl, rfl, rfl, rfl⟩

/-- C6 amended: through Python truthiness (an empty URL counts as no
selection), authentication selects the first nonempty URL contributed, in
catalog order, by a `compute`-type service as its first endpoint with
interface `public` and `region_id` string-equal to the requested region
(`spec_compute_url_amended`); a missing token header, an empty token, or
the absence of such a nonempty URL makes `_get_token_and_compute_url`
fail and the invocation answer 500. -/
theorem C6_compute_endpoint_selection_amended {env : Env} {ev : Event}
    {w : World} {region : String} {token : Option String}
    {catalog : List Service}
    (henv : missingEnvs ENABLE_API_KEY env = [])
    (hallowed : (["start", "stop", "status"].contains (resolvedAction ev)) = true)
    (hregT : truthy (resolvedRegion env ev) = true)
    (hregS : resolvedRegion env ev = some region)
    (hinstT : truthy (resolvedInstance env ev) = true)
    (hid : w.identity = .ok token catalog) :
    (truthyOrNone (find_compute_endpoint region catalog) =
       spec_compute_url_amended region catalog) ∧
    (∀ t url, token = some t → t ≠ "" →
       spec_compute_url_amended region catalog = some url →
       _get_token_and_compute_url region w = .ok (t, url)) ∧
    ((token = none ∨ token = some "" ∨
        spec_compute_url_amended region catalog = none) →
       ∃ e, _get_token_and_compute_url region w = .error e ∧
         lambda_handler env ev w = (_json 500 (.internalError e), [.authTokens])) := by
  have hgetD : (resolvedRegion env ev).getD "" = region := by rw [hregS]; rfl
  have herr : ∀ e, _get_token_and_compute_url region w = .error e →
      lambda_handler env ev w = (_json 500 (.internalError e), [.authTokens]) := by
    intro e he
    exact handler_auth_error henv hallowed hregT hinstT (by rw [hgetD]; exact he)
  refine ⟨find_compute_endpoint_spec region catalog, ?_, ?_⟩
  · intro t url ht hne hspec
    subst ht
    have h1 : truthyOrNone (find_compute_endpoint region catalog) = some url := by
      rw [find_compute_endpoint_spec]
      exact hspec
    obtain ⟨hfind, htr⟩ := truthyOrNone_some h1
    have hune : url ≠ "" := by
      rw [hfind] at htr
      simpa [truthy] using htr
    simp [_get_token_and_compute_url, hid, hfind, hne, truthy, hune]
  · intro hfail
    have hfind : spec_compute_url_amended region catalog = none →
        truthy (find_compute_endpoint region catalog) = false := by
      intro h
      exact truthyOrNone_none (by rw [find_compute_endpoint_spec]; exact h)
    rcases hfail with h | h | h
    · exact ⟨.keyError "X-Subject-Token",
        by simp [_get_token_and_compute_url, hid, h],
        herr _ (by simp [_get_token_and_compute_url, hid, h])⟩
    · exact ⟨.runtimeError
          "Could not retrieve token or compute endpoint from OpenStack.",
        by simp [_get_token_and_compute_url, hid, h],
        herr _ (by simp [_get_token_and_compute_url, hid, h])⟩
    · cases token with
      | none =>
        exact ⟨.keyError "X-Subject-Token",
          by simp [_get_token_and_compute_url, hid],
          herr _ (by simp [_get_token_and_compute_url, hid])⟩
      | some t =>
        exact ⟨.runtimeError
            "Could not retrieve token or compute endpoint from OpenStack.",
          by simp [_get_token_and_compute_url, hid, hfind h],
          herr _ (by simp [_get_token_and_compute_url, hid, hfind h])⟩

/-- C6 witness: on the concrete catalog the scan, through the truthiness
lens, agrees with the amended first-match selection. -/
theorem C6_compute_endpoint_selection_witness :
    truthyOrNone (find_compute_endpoint "GRA11" sampleCatalog) =
      spec_compute_url_amended "GRA11" sampleCatalog :=
  (@C6_compute_endpoint_selection_amended sampleEnv (actionEvent "status")
    (sampleWorld "ACTIVE") "GRA11" (some "tok") sampleCatalog
    rfl rfl rfl rfl rfl rfl).1

/-- With API-key enforcement on and all required variables present, a
request whose resolved key equals the configured one passes the gate. -/
theorem api_key_pass {env : Env} {ev : Event} {w : World}
    (henv : missingEnvs true env = [])
    (hprov : provided_api_key ev = some ((envGet env "API_KEY").getD "")) :
    lambda_handler_cfg true env ev w = lambda_main env ev w := by
  have hte : truthy (envGet env "API_KEY") = true :=
    required_truthy henv (by simp [REQUIRED_ENVS])
  have hne := (truthy_eq_some hte).2
  have htp : truthy (provided_api_key ev) = true := by
    rw [hprov]
    simpa [truthy] using hne
  have heqq : (provided_api_key ev).getD "" = (envGet env "API_KEY").getD "" := by
    rw [hprov]
    simp
  simp [lambda_handler_cfg, henv, _check_api_key, hte, htp, heqq]

/-- With API-key enforcement on and all required variables present, a
request whose resolved key is absent or different is answered 401 with no
outbound call. -/
theorem api_key_reject {env : Env} {ev : Event} {w : World}
    (henv : missingEnvs true env = [])
    (hprov : provided_api_key ev ≠ some ((envGet env "API_KEY").getD "")) :
    (lambda_handler_cfg true env ev w).1.statusCode = 401 ∧
    (lambda_handler_cfg true env ev w).2 = [] := by
  have hte : truthy (envGet env "API_KEY") = true :=
    required_truthy henv (by simp [REQUIRED_ENVS])
  cases htp : truthy (provided_api_key ev) with
  | false =>
    constructor <;> simp [lambda_handler_cfg, henv, _check_api_key, hte, htp, _json]
  | true =>
    obtain ⟨hp, hpne⟩ := truthy_eq_some htp
    have hdiff : (provided_api_key ev).getD "" ≠ (envGet env "API_KEY").getD "" := by
      intro hEq
      exact hprov (by rw [hp, hEq])
    constructor <;>
      simp [lambda_handler_cfg, henv, _check_api_key, hte, htp, hdiff, _json]

/-- C7: with API-key enforcement enabled and all required variables set,
a request whose provided key (header `X-API-Key`, else header `x-api-key`,
else query `api_key`) differs from the configured one — or is absent — is
answered 401 with no outbound call; a request whose provided key equals
the configured one proceeds past the check into `lambda_main`. -/
theorem C7_api_key_gate {env : Env} {ev : Event} {w : World}
    (henv : missingEnvs true env = []) :
    (provided_api_key ev = some ((envGet env "API_KEY").getD "") →
       lambda_handler_cfg true env ev w = lambda_main env ev w) ∧
    (provided_api_key ev ≠ some ((envGet env "API_KEY").getD "") →
       (lambda_handler_cfg true env ev w).1.statusCode = 401 ∧
       (lambda_handler_cfg true env ev w).2 = []) :=
  ⟨fun h => api_key_pass henv h, fun h => api_key_reject henv h⟩

/-- An event carrying the correct API key in the `api_key` query
parameter. -/
def apiKeyQueryEvent : Event :=
  { headers := none,
    queryStringParameters := some [("action", "status"), ("api_key", "sekret")] }

/-- C7 witness: the correct key in the `api_key` query parameter passes
the gate. -/
theorem C7_api_key_gate_witness :
    lambda_handler_cfg true sampleEnvKey apiKeyQueryEvent (sampleWorld "ACTIVE") =
      lambda_main sampleEnvKey apiKeyQueryEvent (sampleWorld "ACTIVE") :=
  (@C7_api_key_gate sampleEnvKey apiKeyQueryEvent (sampleWorld "ACTIVE")
    rfl).1 rfl

/-- C8 counterexample: with enforcement on, a request carrying the correct
key under the header spelling `X-Api-Key` (a capitalization the code never
reads) is rejected 401 instead of passing the check. -/
theorem C8_header_case_counterexample :
    lambda_handler_cfg true sampleEnvKey
        { headers := some [("X-Api-Key", "sekret")],
          queryStringParameters := none }
        (sampleWorld "ACTIVE") =
      (_json 401 (.unauthorized
        "API key not provided. Use X-API-Key header or api_key query parameter"),
       []) := by
  decide

/-- C8 amended: only the two exact header spellings `X-API-Key` and
`x-api-key` are read (in that order of precedence); the correct key under
`X-API-Key`, or under `x-api-key` when `X-API-Key` is absent, passes the
check; other capitalizations are not consulted. -/
theorem C8_header_exact_names {env : Env} {ev : Event} {w : World}
    {key : String}
    (henv : missingEnvs true env = [])
    (hkey : envGet env "API_KEY" = some key) :
    (headerGet ev "X-API-Key" = some key →
       lambda_handler_cfg true env ev w = lambda_main env ev w) ∧
    (headerGet ev "X-API-Key" = none → headerGet ev "x-api-key" = some key →
       lambda_handler_cfg true env ev w = lambda_main env ev w) := by
  have hte : truthy (envGet env "API_KEY") = true :=
    required_truthy henv (by simp [REQUIRED_ENVS])
  have hkne : key ≠ "" := by
    have h2 := (truthy_eq_some hte).2
    rw [hkey] at h2
    simpa using h2
  constructor
  · intro hh
    apply api_key_pass henv
    have hpk : provided_api_key ev = some key := by
      simp [provided_api_key, pyOr, truthy, hh, hkne]
    rw [hkey]
    simpa using hpk
  · intro h1 h2
    apply api_key_pass henv
    have hpk : provided_api_key ev = some key := by
      simp [provided_api_key, pyOr, truthy, h1, h2, hkne]
    rw [hkey]
    simpa using hpk

/-- An event carrying the correct API key under the exact header name
`X-API-Key`. -/
def apiKeyHeaderEvent : Event :=
  { headers := some [("X-API-Key", "sekret")], queryStringParameters := none }

/-- C8 witness: the correct key under the exact spelling `X-API-Key`
passes the gate. -/
theorem C8_header_exact_names_witness :
    lambda_handler_cfg true sampleEnvKey apiKeyHeaderEvent (sampleWorld "ACTIVE") =
      lambda_main sampleEnvKey apiKeyHeaderEvent (sampleWorld "ACTIVE") :=
  (@C8_header_exact_names sampleEnvKey apiKeyHeaderEvent (sampleWorld "ACTIVE")
    "sekret" rfl rfl).1 rfl

/-- C9: whatever the configuration, environment, event and upstream
behaviour, an invocation issues at most one mutating
`POST /servers/{id}/action`. -/
theorem C9_at_most_one_mutating_call (enable : Bool) (env : Env) (ev : Event)
    (w : World) :
    (controlPosts (lambda_handler_cfg enable env ev w).2).length ≤ 1 ∧
    (controlPosts (lambda_handler env ev w).2).length ≤ 1 := by
  have hcfg : ∀ b : Bool,
      (controlPosts (lambda_handler_cfg b env ev w).2).length ≤ 1 := by
    intro b
    unfold lambda_handler_cfg
    repeat' split
    all_goals first
      | exact lambda_main_posts_le env ev w
      | simp [controlPosts]
  exact ⟨hcfg enable, hcfg ENABLE_API_KEY⟩

/-- C10: as shipped, `ENABLE_API_KEY` is `false`, `API_KEY` is not a
required variable, and no invocation of `lambda_handler` is ever answered
401. -/
theorem C10_never_unauthorized :
    ENABLE_API_KEY = false ∧
    ((REQUIRED_ENVS ENABLE_API_KEY).contains "API_KEY") = false ∧
    ∀ (env : Env) (ev : Event) (w : World),
      ((lambda_handler env ev w).1.statusCode == 401) = false := by
  refine ⟨rfl, rfl, ?_⟩
  intro env ev w
  unfold lambda_handler lambda_handler_cfg
  split
  · rfl
  · simpa [ENABLE_API_KEY] using lambda_main_code env ev w
